import Mathlib

/-!
Verification of the natural-language specification of `src/main.py`
(a one-shot music download / normalize job runner) against a shallow
embedding of its code in Lean 4.

Modelling conventions:
- Python strings are Lean `String`; character-level work uses `String.data`.
- Python `str.strip()` removes the characters of `pyIsSpace` from both
  ends.  CPython treats every Unicode whitespace character as space; the
  embedding covers the ASCII whitespace controls plus NEL and NBSP, which
  is faithful for every string the claims mention.
- Python `str.lower()` is modelled as ASCII lowering (`Char.toLower`),
  faithful for the comparisons against the ASCII literals of the source
  (`"done"`, `"mp3"`, `".mp3"`).
- `os.path.join` is modelled with the POSIX separator.
- External effects (tempfile, yt-dlp, os.listdir, os.path.exists, the
  ffprobe wrappers, datetime, shutil.move, ffmpeg, os.remove, rmtree)
  are supplied by an oracle record `TaskEnv`: each call either returns a
  value or raises a Python exception, modelled as `Except String`.
  `os.path.exists` never raises in Python and is a boolean snapshot of
  the file system.  `shutil.rmtree(~, ignore_errors=True)` never raises
  and is modelled as the removal call itself.
-/

deriving instance DecidableEq for Except

/-- Python whitespace predicate used by `str.strip` and `str.split(None)`:
space, tab, newline, vertical tab, form feed, carriage return, the file
separator controls, NEL and NBSP. -/
def pyIsSpace (c : Char) : Bool :=
  c = ' ' || c = '\t' || c = '\n' || c = '\x0b' || c = '\x0c' || c = '\r' ||
  c = '\x1c' || c = '\x1d' || c = '\x1e' || c = '\x1f' || c = '\x85' || c = '\xa0'

/-- Drop the longest suffix of characters satisfying `p` (list form). -/
def dropTrailing (p : Char → Bool) (l : List Char) : List Char :=
  (l.reverse.dropWhile p).reverse

/-- Python `str.strip()` on a character list: drop leading and trailing
whitespace. -/
def pyStripList (l : List Char) : List Char :=
  dropTrailing pyIsSpace (l.dropWhile pyIsSpace)

/-- Python `str.strip()`. -/
def pyStrip (s : String) : String := String.mk (pyStripList s.data)

/-- Python `str.lower()` (ASCII range, see the header note). -/
def pyLower (s : String) : String := String.mk (s.data.map Char.toLower)

/-- Python slicing `s[:300]`, used to truncate diagnostic messages. -/
def truncate300 (s : String) : String := String.mk (s.data.take 300)

/-- Source line 57: the forbidden Windows file-name characters. -/
def FORBIDDEN : String := "\\/:*?\"<>|"

/-- Source line 60: replace every forbidden character by an underscore. -/
def replaceForbidden (name : String) : String :=
  String.mk (name.data.map (fun c => if FORBIDDEN.data.contains c then '_' else c))

/-- Source line 61: `s.strip().rstrip('.')` — strip whitespace from both
ends, then strip trailing periods. -/
def trimName (s : String) : String :=
  String.mk (dropTrailing (fun c => c = '.') (pyStripList s.data))

/-- Source lines 59 to 64, `sanitize_name`: replace forbidden characters,
trim, and fall back to `"untitled"` when the outcome is empty. -/
def sanitize_name (name : String) : String :=
  let t := trimName (replaceForbidden name)
  if t = "" then "untitled" else t

/-- Python `line.split(None, 1)`: skip leading whitespace; the first
field runs to the next whitespace run; the remainder after that run is
kept verbatim; a whitespace-only remainder yields no second field. -/
def pySplit2 (s : String) : List String :=
  let l := s.data.dropWhile pyIsSpace
  if l = [] then []
  else
    let fst := l.takeWhile (fun c => !pyIsSpace c)
    let rest := (l.dropWhile (fun c => !pyIsSpace c)).dropWhile pyIsSpace
    if rest = [] then [String.mk fst] else [String.mk fst, String.mk rest]

/-- Source lines 207 and 216: a line whose stripped, lowercased form is
the sentinel literal `done`. -/
def isDoneLine (s : String) : Bool := pyLower (pyStrip s) == "done"

/-- Source lines 212 to 224: parse the work list.  Blank lines are
skipped, the first sentinel line stops parsing entirely, lines without a
whitespace separator are skipped, and every other line yields the pair
(url, filename). -/
def parseItems : List String → List (String × String)
  | [] => []
  | line :: rest =>
    if pyStrip line = "" then parseItems rest
    else if isDoneLine line then []
    else
      match pySplit2 line with
      | [u, f] => (u, f) :: parseItems rest
      | _ => parseItems rest

/-- Result of `run_cmd` (source lines 76 to 87): exit code, stdout,
stderr of a subprocess. -/
structure RunResult where
  exitCode : Int
  out : String
  err : String
deriving DecidableEq

/-- The dictionary returned by `process_item` (source lines 111 to 177):
success flag, final name without extension, CDN url, destination path,
diagnostic message. -/
structure TaskResult where
  success : Bool
  file : String
  cdn : Option String
  dest : Option String
  message : String
deriving DecidableEq

/-- Oracle for the external effects of one `process_item` invocation.
Each fallible call either returns a value (`Except.ok`) or raises a
Python exception whose message is the `Except.error` payload.  The
source calls each of these at most once per invocation. -/
structure TaskEnv where
  /-- `tempfile.mkdtemp(prefix="yt_")`, source line 127. -/
  mkdtempR : Except String String
  /-- `uuid.uuid4().hex`, source line 130. -/
  uuidHex : String
  /-- `run_cmd(["yt-dlp", ...])`, source line 131. -/
  ytdlpR : Except String RunResult
  /-- `os.listdir(tmpdir)`, source line 137. -/
  listdirR : Except String (List String)
  /-- `os.path.exists`, a boolean snapshot of the file system; it never
  raises in Python. -/
  pathExists : String → Bool
  /-- `ffprobe_codec(src)`, source line 145, wrapping the opaque probe
  subprocess of source lines 90 to 96. -/
  codecR : Except String String
  /-- `ffprobe_bitrate(src)`, source line 146, wrapping the opaque probe
  subprocess of source lines 98 to 108. -/
  bitrateR : Except String Int
  /-- `datetime.datetime.now().strftime("%Y%m%d%H%M%S%f")`, line 151. -/
  timestamp : String
  /-- `shutil.move(src, dest_base)`, source line 158. -/
  moveR : Except String Unit
  /-- `run_cmd(["ffmpeg", ...])`, source line 161. -/
  ffmpegR : Except String RunResult

/-- Observable external calls made by one task, in program order. -/
inductive Call where
  | ytdlp (url : String) (outTemplate : String)
  | listdir (dir : String)
  | probeCodec (src : String)
  | probeBitrate (src : String)
  | move (src : String) (dest : String)
  | ffmpeg (src : String) (dest : String)
  | removeSrc (src : String)
  | rmtree (dir : String)
deriving DecidableEq

/-- Model of `os.path.join` with the POSIX separator. -/
def pyJoin (a b : String) : String := a ++ "/" ++ b

/-- Model of `os.path.basename`: the component after the last slash. -/
def pyBasename (p : String) : String :=
  String.mk ((p.data.reverse.takeWhile (fun c => !(c = '/'))).reverse)

/-- Source line 138: the fetched file is recognized by the prefix
`basename(base) ++ "."`. -/
def srcMatch (base : String) (name : String) : Bool :=
  ((pyBasename base) ++ ".").data.isPrefixOf name.data

/-- Source line 156: the pass-through condition —
`src.lower().endswith(".mp3") and codec.lower() == "mp3" and
192000 <= bps <= 192500`. -/
def passThrough (src codec : String) (bps : Int) : Bool :=
  List.isSuffixOf ".mp3".data (pyLower src).data &&
  pyLower codec == "mp3" &&
  (decide (192000 ≤ bps) && decide (bps ≤ 192500))

/-- Source line 174: the CDN delivery url for a final name. -/
def cdnUrl (user repo branch name : String) : String :=
  "https://cdn.jsdelivr.net/gh/" ++ user ++ "/" ++ repo ++ "@" ++ branch ++
    "/music/" ++ name ++ ".mp3"

/-- Failure dictionary shape shared by every early return of
`process_item`. -/
def failRes (nm msg : String) : TaskResult :=
  { success := false, file := nm, cdn := none, dest := none, message := msg }

/-- Success dictionary shape of source line 175. -/
def okRes (user repo branch safe dest : String) : TaskResult :=
  { success := true, file := safe, cdn := some (cdnUrl user repo branch safe),
    dest := some dest, message := "OK" }

/-- Source lines 155 to 175: the pass-through versus transcode step,
taken once the probe results and the (possibly disambiguated) final name
and destination are known.  `Except.error` carries the raised exception
together with the value of `safe_name` at the raise site, because the
handler of source line 177 reads the current value of that local.
After a transcode, source lines 166 to 170 attempt `os.remove(src)`
guarded by `os.path.exists(src)`, swallowing every failure. -/
def transcode_step (env : TaskEnv) (src codec : String) (bps : Int)
    (safe1 dest1 user repo branch : String) :
    List Call × Except (String × String) TaskResult :=
  if passThrough src codec bps then
    match env.moveR with
    | .error e => ([Call.move src dest1], .error (e, safe1))
    | .ok _ => ([Call.move src dest1], .ok (okRes user repo branch safe1 dest1))
  else
    match env.ffmpegR with
    | .error e => ([Call.ffmpeg src dest1], .error (e, safe1))
    | .ok rr =>
      ([Call.ffmpeg src dest1] ++
        (if env.pathExists src then [Call.removeSrc src] else []),
       if rr.exitCode != 0 then
         .ok (failRes safe1 ("ffmpeg 轉檔失敗：" ++ truncate300 (pyStrip rr.err)))
       else
         .ok (okRes user repo branch safe1 dest1))

/-- Source lines 148 to 153: compute the final name and destination —
`<outdir>/<safe>.mp3`, or, when a file already exists at that path, the
timestamp-suffixed `<outdir>/<safe>-<ts>.mp3`.  The suffixed path is not
itself checked for existence. -/
def resolve_dest (env : TaskEnv) (outdir safe0 : String) : String × String :=
  let dest0 := pyJoin outdir (safe0 ++ ".mp3")
  if env.pathExists dest0 then
    let s1 := safe0 ++ "-" ++ env.timestamp
    (s1, pyJoin outdir (s1 ++ ".mp3"))
  else (safe0, dest0)

/-- Source lines 129 to 175: the body of the `try` block of
`process_item`, given that `tmpdir` was created.  Returns the trace of
external calls together with either the returned dictionary or the
raised exception (with the current `safe_name`). -/
def process_body (env : TaskEnv) (url safe0 tmpdir outdir user repo branch : String) :
    List Call × Except (String × String) TaskResult :=
  let base := pyJoin tmpdir env.uuidHex
  let t0 := [Call.ytdlp url (base ++ ".%(ext)s")]
  match env.ytdlpR with
  | .error e => (t0, .error (e, safe0))
  | .ok rr =>
    if rr.exitCode != 0 then
      (t0, .ok (failRes safe0 ("yt-dlp 失敗：" ++ truncate300 (pyStrip rr.err))))
    else
      let t1 := t0 ++ [Call.listdir tmpdir]
      match env.listdirR with
      | .error e => (t1, .error (e, safe0))
      | .ok names =>
        match names.find? (srcMatch base) with
        | none => (t1, .ok (failRes safe0 "未找到暫存檔"))
        | some n =>
          let src := pyJoin tmpdir n
          if env.pathExists src then
            let t2 := t1 ++ [Call.probeCodec src]
            match env.codecR with
            | .error e => (t2, .error (e, safe0))
            | .ok codec =>
              let t3 := t2 ++ [Call.probeBitrate src]
              match env.bitrateR with
              | .error e => (t3, .error (e, safe0))
              | .ok bps =>
                let sd := resolve_dest env outdir safe0
                let r := transcode_step env src codec bps sd.1 sd.2 user repo branch
                (t3 ++ r.1, r.2)
          else
            (t1, .ok (failRes safe0 "未找到暫存檔"))

/-- Source lines 111 to 183, `process_item`.  The name is sanitized and
the temporary directory is created before the `try` block: an exception
raised by `tempfile.mkdtemp` propagates (left `Except.error`).  Inside
the `try`, every exception is captured by the handler of source lines
176 to 177 into a `success := false` dictionary, and the `finally` of
source lines 178 to 183 removes the temporary directory on every exit
path of the block. -/
def process_item (env : TaskEnv) (item : String × String)
    (outdir user repo branch : String) :
    Except String TaskResult × List Call :=
  let safe_name := sanitize_name item.2
  match env.mkdtempR with
  | .error e => (.error e, [])
  | .ok tmpdir =>
    let body := process_body env item.1 safe_name tmpdir outdir user repo branch
    let res : TaskResult :=
      match body.2 with
      | .ok r => r
      | .error (e, nm) => failRes nm ("例外：" ++ e)
    (.ok res, body.1 ++ [Call.rmtree tmpdir])

/-- Boolean recognizer for move calls in a trace. -/
def isMoveCall : Call → Bool
  | .move _ _ => true
  | _ => false

/-- Boolean recognizer for ffmpeg calls in a trace. -/
def isFfmpegCall : Call → Bool
  | .ffmpeg _ _ => true
  | _ => false

/-- Destination of an output-producing call, if any. -/
def callDest : Call → Option String
  | .move _ d => some d
  | .ffmpeg _ d => some d
  | _ => none

/-- Source line 250: the manifest line of one result dictionary.  The
f-string renders a missing CDN value as the literal `None`; the source
only formats successful results, whose CDN field is always present. -/
def manifestLine (r : TaskResult) : String :=
  "boombox.serverurllist \"" ++ r.file ++ "," ++
    (match r.cdn with | some u => u | none => "None") ++ "\""

/-- Source line 250: manifest lines — one line per successful result, in
order, none for failures. -/
def manifest_lines (results : List TaskResult) : List String :=
  (results.filter (fun r => r.success)).map manifestLine

/-- Source lines 43 to 49, `write_lines_utf8bom`: the file is opened in
write mode, so the new content is the joined lines regardless of any
prior content of the file. -/
def write_lines_utf8bom (priorContent : Option String) (lines : List String) : String :=
  let _ := priorContent
  String.intercalate "\n" lines

/-- Source line 231: `cpu = os.cpu_count() or 4` — `os.cpu_count()`
returns `None` when undetermined, and `or` replaces a falsy value
(`None` or `0`) by 4. -/
def cpuValue (c : Option Nat) : Nat :=
  match c with
  | none => 4
  | some k => if k = 0 then 4 else k

/-- Source line 232: automatic worker sizing. -/
def auto_threads (itemCount cpu : Nat) : Nat :=
  min itemCount (min (cpu * 3) 24)

/-- Source line 233: the worker count actually used — the automatic
value when the requested count is zero or negative, otherwise exactly
the requested count. -/
def computeThreads (itemCount cpu : Nat) (specified : Int) : Int :=
  if specified ≤ 0 then (auto_threads itemCount cpu : Int) else specified

/-- Observable outcome of the post-read part of `main`: exit code, the
lines written to the manifest file (`none` when it is not written),
whether the sentinel was appended to the list file, whether the fallback
rewrite of the list file ran, and the collected task results. -/
structure MainEffects where
  exitCode : Int
  manifestWrite : Option (List String)
  markerAppended : Bool
  markerRewritten : Bool
  taskResults : List TaskResult
deriving DecidableEq

/-- Oracle for the post-read part of `main`: the scheduler outcome of
each work item, and whether the sentinel append (and its fallback
rewrite) succeed. -/
structure MainEnv where
  runItem : String × String → TaskResult
  appendOk : Bool
  rewriteOk : Bool

/-- Source line 206: the last line whose stripped form is non-empty. -/
def lastNonEmpty (lines : List String) : Option String :=
  lines.reverse.find? (fun ln => !(pyStrip ln == ""))

/-- Source lines 206 to 207 and 255: the list already ends in the
sentinel. -/
def lastIsDone (lines : List String) : Bool :=
  match lastNonEmpty lines with
  | some ln => isDoneLine ln
  | none => false

/-- Source lines 204 to 267: `main` from the point where the list lines
have been read.  An already-done list exits 0 immediately; an empty
parse exits 0 without writing the manifest or marking the list; a
non-empty parse runs every item, writes the manifest (overwriting), and
appends the sentinel, falling back to a rewrite when the append fails.
The scheduler collects results in completion order; the model uses
submission order, which no settled claim distinguishes. -/
def mainAfterRead (menv : MainEnv) (lines : List String) : MainEffects :=
  if lastIsDone lines then
    { exitCode := 0, manifestWrite := none, markerAppended := false,
      markerRewritten := false, taskResults := [] }
  else
    let items := parseItems lines
    if items.isEmpty then
      { exitCode := 0, manifestWrite := none, markerAppended := false,
        markerRewritten := false, taskResults := [] }
    else
      let results := items.map menv.runItem
      { exitCode := 0,
        manifestWrite := some (manifest_lines results),
        markerAppended := menv.appendOk,
        markerRewritten := !menv.appendOk && menv.rewriteOk,
        taskResults := results }

/-- Concrete environment whose yt-dlp invocation raises. -/
def cenvYtdlpRaises : TaskEnv :=
  { mkdtempR := .ok "t", uuidHex := "u",
    ytdlpR := .error "OSError: broken pipe", listdirR := .ok [],
    pathExists := fun _ => false, codecR := .ok "", bitrateR := .ok 0,
    timestamp := "TS", moveR := .ok (), ffmpegR := .ok ⟨0, "", ""⟩ }

/-- Concrete environment whose `tempfile.mkdtemp` call raises. -/
def cenvMkdtempRaises : TaskEnv :=
  { mkdtempR := .error "OSError: no space left on device", uuidHex := "u",
    ytdlpR := .ok ⟨0, "", ""⟩, listdirR := .ok [],
    pathExists := fun _ => false, codecR := .ok "", bitrateR := .ok 0,
    timestamp := "TS", moveR := .ok (), ffmpegR := .ok ⟨0, "", ""⟩ }

/-- Concrete main oracle used by the C9 witness. -/
def menvNoop : MainEnv :=
  { runItem := fun _ => failRes "x" "m", appendOk := true, rewriteOk := true }

/-- Concrete environment at the decision point whose fetched file name
and inspected codec are upper-case `MP3`. -/
def cenvUpper : TaskEnv :=
  { mkdtempR := .ok "t", uuidHex := "u", ytdlpR := .ok ⟨0, "", ""⟩,
    listdirR := .ok ["u.MP3"], pathExists := fun p => p == "t/u.MP3",
    codecR := .ok "MP3", bitrateR := .ok 192000, timestamp := "TS",
    moveR := .ok (), ffmpegR := .ok ⟨0, "", ""⟩ }

/-- Concrete environment at the decision point with codec mp3 but bit
rate 180000. -/
def cenvLow : TaskEnv :=
  { mkdtempR := .ok "t", uuidHex := "u", ytdlpR := .ok ⟨0, "", ""⟩,
    listdirR := .ok ["u.mp3"], pathExists := fun p => p == "t/u.mp3",
    codecR := .ok "mp3", bitrateR := .ok 180000, timestamp := "TS",
    moveR := .ok (), ffmpegR := .ok ⟨0, "", ""⟩ }

/-- Concrete environment in which a file exists at every path: both the
naive and the suffixed destination pre-exist. -/
def cenvBoth : TaskEnv :=
  { mkdtempR := .ok "t", uuidHex := "u", ytdlpR := .ok ⟨0, "", ""⟩,
    listdirR := .ok ["u.mp3"], pathExists := fun _ => true,
    codecR := .ok "mp3", bitrateR := .ok 192000,
    timestamp := "20250101000000000000", moveR := .ok (),
    ffmpegR := .ok ⟨0, "", ""⟩ }

/-- Concrete environment in which only the fetched file and the naive
destination exist. -/
def cenvCollide : TaskEnv :=
  { mkdtempR := .ok "t", uuidHex := "u", ytdlpR := .ok ⟨0, "", ""⟩,
    listdirR := .ok ["u.mp3"],
    pathExists := fun p => p == "t/u.mp3" || p == "music/Song.mp3",
    codecR := .ok "mp3", bitrateR := .ok 192000, timestamp := "TS",
    moveR := .ok (), ffmpegR := .ok ⟨0, "", ""⟩ }

/-! Helper lemmas (shared across claims), then the claim theorems. -/

theorem mem_of_mem_dropTrailing {p : Char → Bool} {l : List Char} {c : Char}
    (h : c ∈ dropTrailing p l) : c ∈ l := by
  unfold dropTrailing at h
  rw [List.mem_reverse] at h
  exact List.mem_reverse.mp ((List.dropWhile_sublist p).mem h)

theorem mem_of_mem_pyStripList {l : List Char} {c : Char}
    (h : c ∈ pyStripList l) : c ∈ l := by
  unfold pyStripList at h
  exact (List.dropWhile_sublist pyIsSpace).mem (mem_of_mem_dropTrailing h)

theorem replaceForbidden_clean (name : String) {c : Char}
    (h : c ∈ (replaceForbidden name).data) : FORBIDDEN.data.contains c = false := by
  unfold replaceForbidden at h
  rw [List.mem_map] at h
  obtain ⟨a, _, ha⟩ := h
  by_cases hf : FORBIDDEN.data.contains a = true
  · rw [hf] at ha
    simp only [if_true] at ha
    rw [← ha]
    decide
  · rw [Bool.not_eq_true] at hf
    rw [hf] at ha
    simp only [Bool.false_eq_true, if_false] at ha
    rw [← ha]
    exact hf

/-- C3: `sanitize_name` replaces every forbidden character by the
placeholder, then trims leading and trailing whitespace and trailing
periods; the result contains no forbidden character, and when the
trimmed replacement is empty the fixed fallback literal `"untitled"` is
returned. -/
theorem sanitize_name_contract (name : String) :
    ((sanitize_name name).data.all (fun c => !(FORBIDDEN.data.contains c))) = true ∧
    sanitize_name name =
      (if trimName (replaceForbidden name) = "" then "untitled"
       else trimName (replaceForbidden name)) := by
  constructor
  · rw [List.all_eq_true]
    intro c hc
    rw [Bool.not_eq_true']
    by_cases he : trimName (replaceForbidden name) = ""
    · have hall : ∀ x ∈ ("untitled" : String).data,
          FORBIDDEN.data.contains x = false := by decide
      have hc2 : c ∈ ("untitled" : String).data := by
        simpa [sanitize_name, he] using hc
      exact hall c hc2
    · have hc2 : c ∈ (trimName (replaceForbidden name)).data := by
        simpa [sanitize_name, he] using hc
      exact replaceForbidden_clean name
        (mem_of_mem_pyStripList (mem_of_mem_dropTrailing hc2))
  · rfl

/-- Witness for C3 at a concrete name containing forbidden characters. -/
theorem sanitize_name_contract_witness :
    ((sanitize_name " a<b:c? ").data.all (fun c => !(FORBIDDEN.data.contains c))) = true ∧
    sanitize_name " a<b:c? " =
      (if trimName (replaceForbidden " a<b:c? ") = "" then "untitled"
       else trimName (replaceForbidden " a<b:c? ")) :=
  sanitize_name_contract " a<b:c? "

theorem isDoneLine_strip_ne_empty {d : String} (h : isDoneLine d = true) :
    ¬ pyStrip d = "" := by
  intro he
  unfold isDoneLine at h
  rw [he] at h
  exact absurd h (by decide)

/-- C4: parsing yields no work item from the first sentinel line onward;
lines after it are ignored even when well formed. -/
theorem parse_stops_at_sentinel (pre post : List String) (d : String)
    (h : isDoneLine d = true) :
    parseItems (pre ++ d :: post) = parseItems pre := by
  induction pre with
  | nil =>
    simp only [List.nil_append]
    simp [parseItems, isDoneLine_strip_ne_empty h, h]
  | cons a pre ih =>
    simp only [List.cons_append]
    by_cases h1 : pyStrip a = ""
    · simp [parseItems, h1, ih]
    · by_cases h2 : isDoneLine a = true
      · simp [parseItems, h1, h2]
      · rcases hsp : pySplit2 a with _ | ⟨u, _ | ⟨f, _ | _⟩⟩ <;>
          simp [parseItems, h1, h2, hsp, ih]

/-- Witness for C4: a sentinel with surrounding whitespace and mixed
case stops parsing even though a well-formed entry follows. -/
theorem parse_stops_at_sentinel_witness :
    isDoneLine " Done " = true ∧
    parseItems (["u1 n1"] ++ " Done " :: ["u2 n2"]) = parseItems ["u1 n1"] :=
  ⟨by decide, parse_stops_at_sentinel ["u1 n1"] ["u2 n2"] " Done " (by decide)⟩

/-- C10: on input `"a ."`, which contains no forbidden character,
`sanitize_name` returns `"a "`, which ends in a space, because
whitespace is trimmed before the trailing periods and never afterwards;
applying `sanitize_name` again changes the value, so it is not
idempotent. -/
theorem sanitize_name_not_idempotent :
    sanitize_name "a ." = "a " ∧
    ("a .".data.all (fun c => !(FORBIDDEN.data.contains c))) = true ∧
    (sanitize_name "a .").data.getLast? = some ' ' ∧
    pyIsSpace ' ' = true ∧
    (sanitize_name (sanitize_name "a .") == sanitize_name "a .") = false := by
  decide

/-- C7: with a zero-or-negative requested count the worker count is
`min(itemCount, min(cpu*3, 24))`; a positive requested count is used
exactly; for cpu count 4 and item counts 1, 10, 100 the automatic size
is 1, 10, 12. -/
theorem thread_sizing (n cpu : Nat) (s : Int) (hn : 1 ≤ n) :
    (s ≤ 0 → computeThreads n cpu s = ((min n (min (cpu * 3) 24) : Nat) : Int)) ∧
    (0 < s → computeThreads n cpu s = s) ∧
    computeThreads 1 4 0 = 1 ∧ computeThreads 10 4 0 = 10 ∧
    computeThreads 100 4 0 = 12 := by
  have := hn
  refine ⟨?_, ?_, by decide, by decide, by decide⟩
  · intro hs
    simp [computeThreads, auto_threads, hs]
  · intro hs
    have hns : ¬ s ≤ 0 := by omega
    simp [computeThreads, hns]

/-- Witness for C7 at item count 10, cpu count 4, requested count -1. -/
theorem thread_sizing_witness :
    1 ≤ 10 ∧
    (((-1 : Int) ≤ 0 →
        computeThreads 10 4 (-1) = ((min 10 (min (4 * 3) 24) : Nat) : Int)) ∧
     ((0 : Int) < -1 → computeThreads 10 4 (-1) = -1) ∧
     computeThreads 1 4 0 = 1 ∧ computeThreads 10 4 0 = 10 ∧
     computeThreads 100 4 0 = 12) :=
  ⟨by decide, thread_sizing 10 4 (-1) (by decide)⟩

/-- C6: the manifest holds exactly the successful results, one line per
success in order and none for failures, each line in the literal format
of source line 250, and the written file content does not depend on any
prior manifest content (write mode, not append). -/
theorem manifest_contract (results : List TaskResult) (p q : Option String) :
    write_lines_utf8bom p (manifest_lines results) =
      write_lines_utf8bom q (manifest_lines results) ∧
    manifest_lines results =
      (results.filter (fun r => r.success)).map
        (fun r => "boombox.serverurllist \"" ++ r.file ++ "," ++
          (match r.cdn with | some u => u | none => "None") ++ "\"") ∧
    (manifest_lines results).length = results.countP (fun r => r.success) ∧
    (∀ l ∈ manifest_lines results,
      ∃ r ∈ results, r.success = true ∧ l = manifestLine r) := by
  refine ⟨rfl, rfl, ?_, ?_⟩
  · rw [manifest_lines, List.length_map, List.countP_eq_length_filter]
  · intro l hl
    rw [manifest_lines, List.mem_map] at hl
    obtain ⟨r, hr, heq⟩ := hl
    rw [List.mem_filter] at hr
    exact ⟨r, hr.1, hr.2, heq.symm⟩

/-- Witness for C6 on one successful and one failed result. -/
theorem manifest_contract_witness :
    write_lines_utf8bom (some "old content")
        (manifest_lines [okRes "U" "R" "B" "a" "music/a.mp3", failRes "b" "m"]) =
      write_lines_utf8bom none
        (manifest_lines [okRes "U" "R" "B" "a" "music/a.mp3", failRes "b" "m"]) ∧
    manifest_lines [okRes "U" "R" "B" "a" "music/a.mp3", failRes "b" "m"] =
      ([okRes "U" "R" "B" "a" "music/a.mp3", failRes "b" "m"].filter
          (fun r => r.success)).map
        (fun r => "boombox.serverurllist \"" ++ r.file ++ "," ++
          (match r.cdn with | some u => u | none => "None") ++ "\"") ∧
    (manifest_lines [okRes "U" "R" "B" "a" "music/a.mp3", failRes "b" "m"]).length =
      [okRes "U" "R" "B" "a" "music/a.mp3", failRes "b" "m"].countP
        (fun r => r.success) ∧
    (∀ l ∈ manifest_lines [okRes "U" "R" "B" "a" "music/a.mp3", failRes "b" "m"],
      ∃ r ∈ [okRes "U" "R" "B" "a" "music/a.mp3", failRes "b" "m"],
        r.success = true ∧ l = manifestLine r) :=
  manifest_contract [okRes "U" "R" "B" "a" "music/a.mp3", failRes "b" "m"]
    (some "old content") none

/-- C9: when parsing yields no work item and the list does not already
end in the sentinel, the run exits 0, writes no manifest, does not mark
the list, and runs no task. -/
theorem empty_parse_noop (menv : MainEnv) (lines : List String)
    (h1 : parseItems lines = []) (h2 : lastIsDone lines = false) :
    mainAfterRead menv lines =
      { exitCode := 0, manifestWrite := none, markerAppended := false,
        markerRewritten := false, taskResults := [] } := by
  simp [mainAfterRead, h1, h2]

/-- Witness for C9: a single malformed line (no whitespace separator). -/
theorem empty_parse_noop_witness :
    parseItems ["nosep"] = [] ∧ lastIsDone ["nosep"] = false ∧
    mainAfterRead menvNoop ["nosep"] =
      { exitCode := 0, manifestWrite := none, markerAppended := false,
        markerRewritten := false, taskResults := [] } :=
  ⟨by decide, by decide, empty_parse_noop menvNoop ["nosep"] (by decide) (by decide)⟩

/-- C2 (amended): once the temporary directory has been created, no
exception escapes `process_item` — every raise inside the `try` block is
captured into a `success := false` result whose message starts with the
exception marker.  An exception raised by the directory creation itself,
which the source performs before the `try` block, propagates. -/
theorem task_captures_exceptions (env : TaskEnv) (item : String × String)
    (outdir user repo branch tmpdir : String)
    (h : env.mkdtempR = .ok tmpdir) :
    ∃ r : TaskResult,
      (process_item env item outdir user repo branch).1 = .ok r ∧
      (∀ e nm,
        (process_body env item.1 (sanitize_name item.2) tmpdir
            outdir user repo branch).2 = .error (e, nm) →
        r = failRes nm ("例外：" ++ e)) := by
  cases hb : (process_body env item.1 (sanitize_name item.2) tmpdir
      outdir user repo branch).2 with
  | ok v =>
    refine ⟨v, ?_, ?_⟩
    · simp [process_item, h, hb]
    · intro e nm he
      exact Except.noConfusion he
  | error p =>
    refine ⟨failRes p.2 ("例外：" ++ p.1), ?_, ?_⟩
    · simp [process_item, h, hb]
    · intro e nm he
      injection he with hp
      subst hp
      rfl

/-- Witness for C2: a raise inside the fetch step is captured into a
`success := false` result. -/
theorem task_captures_exceptions_witness :
    cenvYtdlpRaises.mkdtempR = Except.ok "t" ∧
    (∃ r : TaskResult,
      (process_item cenvYtdlpRaises ("u", "Song") "music" "U" "R" "B").1 = .ok r ∧
      (∀ e nm,
        (process_body cenvYtdlpRaises "u" (sanitize_name "Song") "t"
            "music" "U" "R" "B").2 = .error (e, nm) →
        r = failRes nm ("例外：" ++ e))) :=
  ⟨rfl, task_captures_exceptions cenvYtdlpRaises ("u", "Song") "music" "U" "R" "B"
    "t" rfl⟩

/-- Counterexample to C2 as stated: an exception raised by the
temporary-directory creation step (source line 127, before the `try`
block of line 128) propagates past the boundary of `process_item`
instead of being captured into a `success := false` result. -/
theorem task_captures_exceptions_cex :
    (process_item cenvMkdtempRaises ("u", "Song") "music" "U" "R" "B").1 =
      Except.error "OSError: no space left on device" := by decide

/-- C8: on every exit path on which the temporary directory was created
— success, captured failure, and a raise in any step of the `try` block
— the final external action of the task is the removal of that
directory (the `finally` of source lines 178 to 183; the removal call
ignores errors and never raises). -/
theorem tmpdir_cleanup (env : TaskEnv) (item : String × String)
    (outdir user repo branch tmpdir : String)
    (h : env.mkdtempR = .ok tmpdir) :
    (process_item env item outdir user repo branch).2.getLast? =
      some (Call.rmtree tmpdir) := by
  simp [process_item, h]

/-- Witness for C8 on an environment whose ffmpeg step raises. -/
theorem tmpdir_cleanup_witness :
    cenvYtdlpRaises.mkdtempR = Except.ok "t" ∧
    (process_item cenvYtdlpRaises ("u", "Song") "music" "U" "R" "B").2.getLast? =
      some (Call.rmtree "t") :=
  ⟨rfl, tmpdir_cleanup cenvYtdlpRaises ("u", "Song") "music" "U" "R" "B" "t" rfl⟩

theorem transcode_counts_move (env : TaskEnv) (src codec : String) (bps : Int)
    (safe1 dest1 user repo branch : String) :
    (transcode_step env src codec bps safe1 dest1 user repo branch).1.countP isMoveCall
      = (if passThrough src codec bps then 1 else 0) := by
  unfold transcode_step
  cases h : passThrough src codec bps
  · simp only [h, Bool.false_eq_true, if_false]
    cases env.ffmpegR
    · simp [isMoveCall]
    · split_ifs <;> simp [isMoveCall]
  · simp only [h, if_true]
    cases env.moveR <;> simp [isMoveCall]

theorem transcode_counts_ffmpeg (env : TaskEnv) (src codec : String) (bps : Int)
    (safe1 dest1 user repo branch : String) :
    (transcode_step env src codec bps safe1 dest1 user repo branch).1.countP isFfmpegCall
      = (if passThrough src codec bps then 0 else 1) := by
  unfold transcode_step
  cases h : passThrough src codec bps
  · simp only [h, Bool.false_eq_true, if_false]
    cases env.ffmpegR
    · simp [isFfmpegCall]
    · split_ifs <;> simp [isFfmpegCall]
  · simp only [h, if_true]
    cases env.moveR <;> simp [isFfmpegCall]

theorem transcode_filterMap_dest (env : TaskEnv) (src codec : String) (bps : Int)
    (safe1 dest1 user repo branch : String) :
    (transcode_step env src codec bps safe1 dest1 user repo branch).1.filterMap callDest
      = [dest1] := by
  unfold transcode_step
  cases h : passThrough src codec bps
  · simp only [h, Bool.false_eq_true, if_false]
    cases env.ffmpegR
    · simp [callDest]
    · split_ifs <;> simp [callDest]
  · simp only [h, if_true]
    cases env.moveR <;> simp [callDest]

theorem transcode_step_ok (env : TaskEnv) (src codec : String) (bps : Int)
    (safe1 dest1 user repo branch : String) (r : TaskResult)
    (hr : (transcode_step env src codec bps safe1 dest1 user repo branch).2 = .ok r)
    (hs : r.success = true) :
    r = okRes user repo branch safe1 dest1 := by
  unfold transcode_step at hr
  cases h : passThrough src codec bps <;> rw [h] at hr
  · simp only [Bool.false_eq_true, if_false] at hr
    cases hf : env.ffmpegR <;> rw [hf] at hr
    · exact Except.noConfusion hr
    · simp only at hr
      split_ifs at hr
      · injection hr with hv
        rw [← hv] at hs
        simp [failRes] at hs
      · injection hr with hv
        exact hv.symm
  · simp only [if_true] at hr
    cases hm : env.moveR <;> rw [hm] at hr
    · exact Except.noConfusion hr
    · simp only at hr
      injection hr with hv
      exact hv.symm

theorem reach_snd (env : TaskEnv)
    (url raw outdir user repo branch tmpdir n codec : String)
    (rr : RunResult) (names : List String) (bps : Int)
    (h0 : env.mkdtempR = .ok tmpdir)
    (h1 : env.ytdlpR = .ok rr) (h2 : rr.exitCode = 0)
    (h3 : env.listdirR = .ok names)
    (h4 : names.find? (srcMatch (pyJoin tmpdir env.uuidHex)) = some n)
    (h5 : env.pathExists (pyJoin tmpdir n) = true)
    (h6 : env.codecR = .ok codec) (h7 : env.bitrateR = .ok bps) :
    (process_item env (url, raw) outdir user repo branch).2 =
      [Call.ytdlp url ((pyJoin tmpdir env.uuidHex) ++ ".%(ext)s"),
       Call.listdir tmpdir, Call.probeCodec (pyJoin tmpdir n),
       Call.probeBitrate (pyJoin tmpdir n)] ++
      (transcode_step env (pyJoin tmpdir n) codec bps
        (resolve_dest env outdir (sanitize_name raw)).1
        (resolve_dest env outdir (sanitize_name raw)).2 user repo branch).1 ++
      [Call.rmtree tmpdir] := by
  simp [process_item, h0, process_body, h1, h2, h3, h4, h5, h6, h7]

theorem reach_fst (env : TaskEnv)
    (url raw outdir user repo branch tmpdir n codec : String)
    (rr : RunResult) (names : List String) (bps : Int)
    (h0 : env.mkdtempR = .ok tmpdir)
    (h1 : env.ytdlpR = .ok rr) (h2 : rr.exitCode = 0)
    (h3 : env.listdirR = .ok names)
    (h4 : names.find? (srcMatch (pyJoin tmpdir env.uuidHex)) = some n)
    (h5 : env.pathExists (pyJoin tmpdir n) = true)
    (h6 : env.codecR = .ok codec) (h7 : env.bitrateR = .ok bps) :
    ∀ v : TaskResult,
      (transcode_step env (pyJoin tmpdir n) codec bps
        (resolve_dest env outdir (sanitize_name raw)).1
        (resolve_dest env outdir (sanitize_name raw)).2 user repo branch).2 = .ok v →
      (process_item env (url, raw) outdir user repo branch).1 = .ok v := by
  intro v hv
  simp [process_item, h0, process_body, h1, h2, h3, h4, h5, h6, h7, hv]

theorem reach_fst_err (env : TaskEnv)
    (url raw outdir user repo branch tmpdir n codec : String)
    (rr : RunResult) (names : List String) (bps : Int)
    (h0 : env.mkdtempR = .ok tmpdir)
    (h1 : env.ytdlpR = .ok rr) (h2 : rr.exitCode = 0)
    (h3 : env.listdirR = .ok names)
    (h4 : names.find? (srcMatch (pyJoin tmpdir env.uuidHex)) = some n)
    (h5 : env.pathExists (pyJoin tmpdir n) = true)
    (h6 : env.codecR = .ok codec) (h7 : env.bitrateR = .ok bps) :
    ∀ e nm : String,
      (transcode_step env (pyJoin tmpdir n) codec bps
        (resolve_dest env outdir (sanitize_name raw)).1
        (resolve_dest env outdir (sanitize_name raw)).2 user repo branch).2 =
          .error (e, nm) →
      (process_item env (url, raw) outdir user repo branch).1 =
        .ok (failRes nm ("例外：" ++ e)) := by
  intro e nm hv
  simp [process_item, h0, process_body, h1, h2, h3, h4, h5, h6, h7, hv]

/-- C1 (amended): at the decision point of the task, the pass-through
branch (a move call, no ffmpeg call) is taken if and only if the
lowercased fetched path ends with `.mp3`, the lowercased inspected codec
equals `mp3`, and the inspected bit rate lies in the inclusive band
192000 to 192500; in every other case (including bit rate 180000) the
external transcode capability (ffmpeg) is invoked and no move happens.
The source compares both the extension and the codec case-insensitively
(source line 156), so the comparisons here are on the lowercased
values, not literal equality. -/
theorem passthrough_decision (env : TaskEnv)
    (url raw outdir user repo branch tmpdir n codec : String)
    (rr : RunResult) (names : List String) (bps : Int)
    (h0 : env.mkdtempR = .ok tmpdir)
    (h1 : env.ytdlpR = .ok rr) (h2 : rr.exitCode = 0)
    (h3 : env.listdirR = .ok names)
    (h4 : names.find? (srcMatch (pyJoin tmpdir env.uuidHex)) = some n)
    (h5 : env.pathExists (pyJoin tmpdir n) = true)
    (h6 : env.codecR = .ok codec) (h7 : env.bitrateR = .ok bps) :
    passThrough (pyJoin tmpdir n) codec bps =
      (List.isSuffixOf ".mp3".data (pyLower (pyJoin tmpdir n)).data &&
       (pyLower codec == "mp3") &&
       (decide (192000 ≤ bps) && decide (bps ≤ 192500))) ∧
    (passThrough (pyJoin tmpdir n) codec bps = true →
      (process_item env (url, raw) outdir user repo branch).2.countP isMoveCall = 1 ∧
      (process_item env (url, raw) outdir user repo branch).2.countP isFfmpegCall = 0) ∧
    (passThrough (pyJoin tmpdir n) codec bps = false →
      (process_item env (url, raw) outdir user repo branch).2.countP isFfmpegCall = 1 ∧
      (process_item env (url, raw) outdir user repo branch).2.countP isMoveCall = 0) := by
  have hsnd := reach_snd env url raw outdir user repo branch tmpdir n codec
    rr names bps h0 h1 h2 h3 h4 h5 h6 h7
  refine ⟨rfl, ?_, ?_⟩ <;> intro hp <;> rw [hsnd] <;> constructor <;>
    simp [List.countP_append, transcode_counts_move, transcode_counts_ffmpeg,
      hp, isMoveCall, isFfmpegCall]

/-- Counterexample to C1 as stated: with fetched file `u.MP3` and
inspected codec `MP3` at bit rate 192000, the file name does not end
with the literal `.mp3` and the codec is not exactly `mp3`, yet the
pass-through branch is taken (one move call, no ffmpeg call), because
source line 156 lowercases both before comparing. -/
theorem passthrough_decision_cex :
    cenvUpper.codecR = Except.ok "MP3" ∧
    ("MP3" == "mp3") = false ∧
    List.isSuffixOf ".mp3".data "t/u.MP3".data = false ∧
    (process_item cenvUpper ("u", "Song") "music" "U" "R" "B").2.countP
      isMoveCall = 1 ∧
    (process_item cenvUpper ("u", "Song") "music" "U" "R" "B").2.countP
      isFfmpegCall = 0 := by decide

/-- Witness for C1 at bit rate 180000: the condition is false and the
transcode branch is taken. -/
theorem passthrough_decision_witness :
    (cenvLow.mkdtempR = Except.ok "t" ∧
     cenvLow.ytdlpR = Except.ok ⟨0, "", ""⟩ ∧
     (0 : Int) = 0 ∧
     cenvLow.listdirR = Except.ok ["u.mp3"] ∧
     ["u.mp3"].find? (srcMatch (pyJoin "t" cenvLow.uuidHex)) = some "u.mp3" ∧
     cenvLow.pathExists (pyJoin "t" "u.mp3") = true ∧
     cenvLow.codecR = Except.ok "mp3" ∧
     cenvLow.bitrateR = Except.ok 180000) ∧
    (passThrough (pyJoin "t" "u.mp3") "mp3" 180000 =
      (List.isSuffixOf ".mp3".data (pyLower (pyJoin "t" "u.mp3")).data &&
       (pyLower "mp3" == "mp3") &&
       (decide ((192000 : Int) ≤ 180000) && decide ((180000 : Int) ≤ 192500))) ∧
    (passThrough (pyJoin "t" "u.mp3") "mp3" 180000 = true →
      (process_item cenvLow ("u", "Song") "music" "U" "R" "B").2.countP
        isMoveCall = 1 ∧
      (process_item cenvLow ("u", "Song") "music" "U" "R" "B").2.countP
        isFfmpegCall = 0) ∧
    (passThrough (pyJoin "t" "u.mp3") "mp3" 180000 = false →
      (process_item cenvLow ("u", "Song") "music" "U" "R" "B").2.countP
        isFfmpegCall = 1 ∧
      (process_item cenvLow ("u", "Song") "music" "U" "R" "B").2.countP
        isMoveCall = 0)) :=
  ⟨⟨rfl, rfl, rfl, rfl, by decide, by decide, rfl, rfl⟩,
   passthrough_decision cenvLow "u" "Song" "music" "U" "R" "B" "t" "u.mp3" "mp3"
     ⟨0, "", ""⟩ ["u.mp3"] 180000 rfl rfl rfl rfl (by decide) (by decide) rfl rfl⟩

theorem suffixed_dest_ne (outdir safe0 ts : String) :
    pyJoin outdir (safe0 ++ "-" ++ ts ++ ".mp3") ≠
      pyJoin outdir (safe0 ++ ".mp3") := by
  intro heq
  have hlen := congrArg String.length heq
  have hdash : ("-" : String).length = 1 := rfl
  simp only [pyJoin, String.length_append, hdash] at hlen
  omega

/-- C5 (amended): when a file already exists at the naive destination
`<outdir>/<sanitized>.mp3`, the task appends the timestamp suffix to the
sanitized name and recomputes the destination, so the realized output
path (the target of the single move or ffmpeg call) is the suffixed path
and differs from the naive path, and on success the manifest name and
the delivery URL use the suffixed name.  The suffixed path is not
itself re-checked for existence, so freedom from collision holds only
when no pre-existing file bears the suffixed name. -/
theorem collision_suffix (env : TaskEnv)
    (url raw outdir user repo branch tmpdir n codec : String)
    (rr : RunResult) (names : List String) (bps : Int)
    (h0 : env.mkdtempR = .ok tmpdir)
    (h1 : env.ytdlpR = .ok rr) (h2 : rr.exitCode = 0)
    (h3 : env.listdirR = .ok names)
    (h4 : names.find? (srcMatch (pyJoin tmpdir env.uuidHex)) = some n)
    (h5 : env.pathExists (pyJoin tmpdir n) = true)
    (h6 : env.codecR = .ok codec) (h7 : env.bitrateR = .ok bps)
    (hd : env.pathExists (pyJoin outdir (sanitize_name raw ++ ".mp3")) = true) :
    (process_item env (url, raw) outdir user repo branch).2.filterMap callDest =
      [pyJoin outdir (sanitize_name raw ++ "-" ++ env.timestamp ++ ".mp3")] ∧
    pyJoin outdir (sanitize_name raw ++ "-" ++ env.timestamp ++ ".mp3") ≠
      pyJoin outdir (sanitize_name raw ++ ".mp3") ∧
    (∀ r : TaskResult,
      (process_item env (url, raw) outdir user repo branch).1 = .ok r →
      r.success = true →
      r.file = sanitize_name raw ++ "-" ++ env.timestamp ∧
      r.cdn = some (cdnUrl user repo branch
        (sanitize_name raw ++ "-" ++ env.timestamp)) ∧
      r.dest = some (pyJoin outdir
        (sanitize_name raw ++ "-" ++ env.timestamp ++ ".mp3"))) := by
  have hres : resolve_dest env outdir (sanitize_name raw) =
      (sanitize_name raw ++ "-" ++ env.timestamp,
       pyJoin outdir (sanitize_name raw ++ "-" ++ env.timestamp ++ ".mp3")) := by
    simp [resolve_dest, hd]
  have hsnd := reach_snd env url raw outdir user repo branch tmpdir n codec
    rr names bps h0 h1 h2 h3 h4 h5 h6 h7
  refine ⟨?_, suffixed_dest_ne outdir (sanitize_name raw) env.timestamp, ?_⟩
  · rw [hsnd]
    simp [List.filterMap_append, transcode_filterMap_dest, callDest, hres]
  · intro r hr hs
    cases hstep : (transcode_step env (pyJoin tmpdir n) codec bps
        (resolve_dest env outdir (sanitize_name raw)).1
        (resolve_dest env outdir (sanitize_name raw)).2 user repo branch).2 with
    | ok v =>
      have hfst := reach_fst env url raw outdir user repo branch tmpdir n codec
        rr names bps h0 h1 h2 h3 h4 h5 h6 h7 v hstep
      rw [hfst] at hr
      injection hr with hv
      subst hv
      have hok := transcode_step_ok env (pyJoin tmpdir n) codec bps
        (resolve_dest env outdir (sanitize_name raw)).1
        (resolve_dest env outdir (sanitize_name raw)).2 user repo branch v
        hstep hs
      rw [hok, hres]
      exact ⟨rfl, rfl, rfl⟩
    | error p =>
      have herr := reach_fst_err env url raw outdir user repo branch tmpdir n codec
        rr names bps h0 h1 h2 h3 h4 h5 h6 h7 p.1 p.2 (by rw [hstep])
      rw [herr] at hr
      injection hr with hv
      rw [← hv] at hs
      simp [failRes] at hs

/-- Counterexample to C5 as stated: the naive destination pre-exists, so
the task moves to the timestamp-suffixed path — but a file pre-exists at
that suffixed path too (the existence snapshot is true there), because
source lines 148 to 153 never re-check the suffixed path; the realized
output path therefore collides with a pre-existing file. -/
theorem collision_suffix_cex :
    cenvBoth.pathExists (pyJoin "music" (sanitize_name "Song" ++ ".mp3")) = true ∧
    (process_item cenvBoth ("u", "Song") "music" "U" "R" "B").2.filterMap callDest =
      [pyJoin "music" (sanitize_name "Song" ++ "-" ++ cenvBoth.timestamp ++ ".mp3")] ∧
    cenvBoth.pathExists
      (pyJoin "music" (sanitize_name "Song" ++ "-" ++ cenvBoth.timestamp ++ ".mp3")) =
      true := by decide

/-- Witness for C5: the naive destination exists, the realized output
path is the suffixed one, and the success result carries the suffixed
name in its manifest name, delivery URL and destination. -/
theorem collision_suffix_witness :
    (cenvCollide.mkdtempR = Except.ok "t" ∧
     cenvCollide.ytdlpR = Except.ok ⟨0, "", ""⟩ ∧
     (0 : Int) = 0 ∧
     cenvCollide.listdirR = Except.ok ["u.mp3"] ∧
     ["u.mp3"].find? (srcMatch (pyJoin "t" cenvCollide.uuidHex)) = some "u.mp3" ∧
     cenvCollide.pathExists (pyJoin "t" "u.mp3") = true ∧
     cenvCollide.codecR = Except.ok "mp3" ∧
     cenvCollide.bitrateR = Except.ok 192000 ∧
     cenvCollide.pathExists
       (pyJoin "music" (sanitize_name "Song" ++ ".mp3")) = true) ∧
    ((process_item cenvCollide ("u", "Song") "music" "U" "R" "B").2.filterMap
        callDest =
      [pyJoin "music"
        (sanitize_name "Song" ++ "-" ++ cenvCollide.timestamp ++ ".mp3")] ∧
    pyJoin "music" (sanitize_name "Song" ++ "-" ++ cenvCollide.timestamp ++ ".mp3") ≠
      pyJoin "music" (sanitize_name "Song" ++ ".mp3") ∧
    (∀ r : TaskResult,
      (process_item cenvCollide ("u", "Song") "music" "U" "R" "B").1 = .ok r →
      r.success = true →
      r.file = sanitize_name "Song" ++ "-" ++ cenvCollide.timestamp ∧
      r.cdn = some (cdnUrl "U" "R" "B"
        (sanitize_name "Song" ++ "-" ++ cenvCollide.timestamp)) ∧
      r.dest = some (pyJoin "music"
        (sanitize_name "Song" ++ "-" ++ cenvCollide.timestamp ++ ".mp3")))) :=
  ⟨⟨rfl, rfl, rfl, rfl, by decide, by decide, rfl, rfl, by decide⟩,
   collision_suffix cenvCollide "u" "Song" "music" "U" "R" "B" "t" "u.mp3" "mp3"
     ⟨0, "", ""⟩ ["u.mp3"] 192000 rfl rfl rfl rfl (by decide) (by decide) rfl rfl
     (by decide)⟩
